import Mathlib

/-!
Shallow embedding of the cargo build script of the mpfr-sys crate
(build.rs).  The script has three stages: a library presence detector
(check_library), a source build driver (run_build) and an artifact
publisher (emit_cargo_config), orchestrated by main.

Environment lookups, subprocess outcomes and filesystem operation results
are modelled as explicit parameters (an oracle world), strings as Lean
strings, and the staged artifact directory as a record of existence flags
for the paths the script inspects or creates.
-/

/- Constants from build.rs lines 8 and 9. -/

def MPFR_NAME : String := "libmpfr"

def MPFR_VERSION : String := "3.1.2"

/-- Occurrence of one character sequence inside another, as a prefix at
some position. -/
def containsSeq (pat : List Char) : List Char → Bool
  | [] => pat.isEmpty
  | c :: rest => pat.isPrefixOf (c :: rest) || containsSeq pat rest

/-- Substring containment, the Rust str contains method used throughout
build.rs (target triple tests, ldconfig line filtering). -/
def strContains (s pat : String) : Bool :=
  containsSeq pat.data s.data

/-- Suffix test on strings, used to state properties of the composed
compile-flags string. -/
def strEndsWith (s pat : String) : Bool :=
  pat.data.isSuffixOf s.data

/-- Split a character list on newline characters, modelling the lines
iterator applied to the captured ldconfig output (build.rs line 19). -/
def splitLines : List Char → List (List Char)
  | [] => [[]]
  | c :: rest =>
    match splitLines rest with
    | [] => [[c]]
    | l :: ls => if c = '\n' then [] :: l :: ls else (c :: l) :: ls

/- Library presence detector, build.rs lines 11 to 33 (unix variant). -/

/-- The three fixed directories probed by the fallback strategy
(build.rs line 26). -/
def systemLibDirs : List String := ["/lib", "/usr/lib", "/usr/local/lib"]

/-- Fallback strategy of the detector: probe the fixed directories for the
conventional shared-object file name (build.rs lines 26 to 29).  The
filesystem is modelled by the predicate fsExists on full paths. -/
def probeSystemDirs (fsExists : String → Bool) : Bool :=
  systemLibDirs.any (fun dir => fsExists (dir ++ "/" ++ MPFR_NAME ++ ".so"))

/-- Filter applied to one line of the shared-library cache index
(build.rs lines 20 and 21): the line must contain the library name, and,
when the target is 64-bit, also the x86-64 architecture tag. -/
def cacheEntryQualifies (is64bit : Bool) (name entry : String) : Bool :=
  strContains entry name &&
    (if is64bit then strContains entry "x86-64" else true)

/-- check_library, build.rs lines 11 to 33.  queryOutput is the result of
launching the cache query tool: none when the launch fails, some raw
output otherwise.  When the launch succeeds and the output is nonempty the
function returns the filtered line scan; in every other case it falls back
to probing the fixed system directories. -/
def check_library (name target : String) (queryOutput : Option String)
    (fsExists : String → Bool) : Bool :=
  match queryOutput with
  | some out =>
    if out.data.isEmpty then probeSystemDirs fsExists
    else
      let is64bit := strContains target "x86_64"
      (splitLines out.data).any
        (fun l => cacheEntryQualifies is64bit name (String.mk l))
  | none => probeSystemDirs fsExists

/- Compile-flags composition, build.rs lines 88 to 101. -/

/-- The CFLAGS composition of run_build (build.rs lines 88 to 101):
start from the ambient CFLAGS value (empty when unset), append the two
dead-code-elision flags, then the width flag chosen from the target
triple, then -fPIC unless the triple is the i686 case, and finally, when
the dependency include hint is set, the characters -I followed directly
by the hinted directory (the source appends -I with no leading space). -/
def composeCflags (cflagsEnv : Option String) (target : String)
    (gmpInclude : Option String) : String :=
  let cflags := cflagsEnv.getD ""
  let cflags := cflags ++ " -ffunction-sections -fdata-sections"
  let cflags :=
    if strContains target "i686" then cflags ++ " -m32"
    else if strContains target "x86_64" then cflags ++ " -m64"
    else cflags
  let cflags :=
    if !(strContains target "i686") then cflags ++ " -fPIC" else cflags
  match gmpInclude with
  | some inc => cflags ++ "-I" ++ inc
  | none => cflags

/-- The width flag actually appended for a target triple: -m32 for the
i686 case, -m64 for the x86_64 case, nothing otherwise (build.rs lines
90 to 94). -/
def widthFlag (target : String) : String :=
  if strContains target "i686" then " -m32"
  else if strContains target "x86_64" then " -m64"
  else ""

/-- The position-independent-code flag appended unless the target is the
i686 case (build.rs lines 95 to 97). -/
def picFlag (target : String) : String :=
  if strContains target "i686" then "" else " -fPIC"

/-- The dependency include hint suffix (build.rs lines 98 to 101): the
characters -I followed directly by the hinted directory, nothing when the
hint is absent. -/
def includeFlag (gmpInclude : Option String) : String :=
  match gmpInclude with
  | some inc => "-I" ++ inc
  | none => ""

/- Source build driver, build.rs lines 73 to 143. -/

/-- Outcome of one filesystem operation: success, failure because the
path did not exist, or failure for any other reason. -/
inductive IoResult where
  | ok : IoResult
  | noEnt : IoResult
  | err : IoResult
deriving DecidableEq, Repr

/-- Existence flags for the staged paths that main and run_build inspect
or create: the staged library directory, the staged archive libmpfr.a in
it, the staged include directory, and the two headers mpfr.h and
mpf2mpfr.h in it. -/
structure StagedState where
  libDirExists : Bool
  libmpfrAExists : Bool
  includeDirExists : Bool
  mpfrHExists : Bool
  mpf2mpfrHExists : Bool
deriving DecidableEq, Repr

/-- The staged state with nothing present. -/
def emptyStaged : StagedState := ⟨false, false, false, false, false⟩

/-- Oracle world for one run_build invocation: the outcome of every
filesystem operation and subprocess the driver performs, in program
order (build.rs lines 103 to 142), plus the existence of the two
conventional archive locations after make (lines 132 and 133). -/
structure BuildWorld where
  rmBuildRes : IoResult
  rmOutRes : IoResult
  mkLibRes : IoResult
  mkIncRes : IoResult
  mkBuildRes : IoResult
  configureOk : Bool
  makeOk : Bool
  p1Exists : Bool
  p2Exists : Bool
  renameP1Res : IoResult
  renameP2Res : IoResult
  copyMpfrHRes : IoResult
  copyMpf2HRes : IoResult
deriving DecidableEq, Repr

/-- Result of one run_build invocation: whether the driver aborted
(an unwrap or assert failure), the staged state it left behind, and the
archive rename it performed, as a source and destination path pair. -/
structure BuildOutput where
  panicked : Bool
  finalState : StagedState
  stagedArchive : Option (String × String)
deriving DecidableEq, Repr

/-- Conventional archive location with the .a suffix (build.rs line 132),
relative to the build scratch directory. -/
def archiveSrcA : String := "src/.libs/libmpfr.a"

/-- Conventional archive location with the .lib suffix (build.rs line
133), relative to the build scratch directory. -/
def archiveSrcLib : String := "src/.libs/libmpfr.lib"

/-- run_build, build.rs lines 73 to 143.  The two rmdir_recursive calls
and the two mkdir_recursive calls discard their results (lines 103, 104,
106, 107); the plain mkdir of the build directory, the configure and make
subprocesses, the archive rename and the two header copies abort the run
on failure (unwrap or assert).  The archive is taken from the .a location
when it exists, otherwise the rename is attempted from the .lib location
(lines 131 to 138), and lands under the canonical name libmpfr.a in the
staged library directory. -/
def run_build (w : BuildWorld) (s : StagedState) (outLibDir : String) :
    BuildOutput :=
  let s := if w.rmOutRes = IoResult.ok then emptyStaged else s
  let s := if w.mkLibRes = IoResult.ok then { s with libDirExists := true } else s
  let s := if w.mkIncRes = IoResult.ok then { s with includeDirExists := true } else s
  if w.mkBuildRes ≠ IoResult.ok then ⟨true, s, none⟩
  else if !w.configureOk then ⟨true, s, none⟩
  else if !w.makeOk then ⟨true, s, none⟩
  else
    let src := if w.p1Exists then archiveSrcA else archiveSrcLib
    let renameRes := if w.p1Exists then w.renameP1Res else w.renameP2Res
    if renameRes ≠ IoResult.ok then ⟨true, s, none⟩
    else
      let staged := some (src, outLibDir ++ "/libmpfr.a")
      let s := { s with libmpfrAExists := true }
      if w.copyMpfrHRes ≠ IoResult.ok then ⟨true, s, staged⟩
      else
        let s := { s with mpfrHExists := true }
        if w.copyMpf2HRes ≠ IoResult.ok then ⟨true, s, staged⟩
        else ⟨false, { s with mpf2mpfrHExists := true }, staged⟩

/- Orchestration, build.rs lines 41 to 71. -/

/-- The idempotence marker tested by main (build.rs lines 61 and 62): the
staged library directory and the archive libmpfr.a in it exist, and the
staged include directory and the header mpfr.h in it exist. -/
def stagedValid (s : StagedState) : Bool :=
  s.libDirExists && s.libmpfrAExists && s.includeDirExists && s.mpfrHExists

/-- emit_cargo_config, build.rs lines 145 to 149: the three announcement
lines printed on the cargo control channel. -/
def emit_cargo_config (libDir includeDir : String) : List String :=
  ["cargo:rustc-flags=-L " ++ libDir ++ " -l mpfr:static",
   "cargo:libdir=" ++ libDir,
   "cargo:include=" ++ includeDir]

/-- Result of one main invocation: whether run_build was entered, whether
the run aborted, the announcement lines printed, and the staged state
left behind. -/
structure MainResult where
  buildInvoked : Bool
  panicked : Bool
  emitted : List String
  finalState : StagedState
deriving DecidableEq, Repr

/-- main, build.rs lines 41 to 71: return at once when the detector
reports the library present; otherwise run the build driver unless the
idempotence marker holds, then publish the three announcement lines. -/
def mainRun (name target : String) (queryOutput : Option String)
    (fsExists : String → Bool) (s : StagedState) (w : BuildWorld)
    (outLibDir outIncludeDir : String) : MainResult :=
  if check_library name target queryOutput fsExists then
    ⟨false, false, [], s⟩
  else if stagedValid s then
    ⟨false, false, emit_cargo_config outLibDir outIncludeDir, s⟩
  else
    let b := run_build w s outLibDir
    if b.panicked then ⟨true, true, [], b.finalState⟩
    else ⟨true, false, emit_cargo_config outLibDir outIncludeDir, b.finalState⟩

/-- A run_build oracle world in which every operation succeeds and the
archive is produced at the .a location. -/
def allOkWorld : BuildWorld :=
  { rmBuildRes := IoResult.ok, rmOutRes := IoResult.ok,
    mkLibRes := IoResult.ok, mkIncRes := IoResult.ok,
    mkBuildRes := IoResult.ok, configureOk := true, makeOk := true,
    p1Exists := true, p2Exists := false,
    renameP1Res := IoResult.ok, renameP2Res := IoResult.err,
    copyMpfrHRes := IoResult.ok, copyMpf2HRes := IoResult.ok }

/-- A run_build oracle world in which the build tool succeeds but neither
conventional archive location exists afterwards, so the rename from the
.lib location fails. -/
def noArchiveWorld : BuildWorld :=
  { allOkWorld with
    p1Exists := false, p2Exists := false,
    renameP1Res := IoResult.ok, renameP2Res := IoResult.err }

/- Theorems. -/

/-- C1: with target triple x86_64-unknown-linux-gnu, ambient CFLAGS empty
and the dependency include hint /opt/dep/include, the composed
compile-flags string is evaluated: the include hint is appended with no
separating space, so the string ends with -fPIC-I/opt/dep/include and not
with the separate flags -m64 -fPIC -I/opt/dep/include the claim states. -/
theorem cflags_missing_include_space :
    composeCflags (some "") "x86_64-unknown-linux-gnu" (some "/opt/dep/include") =
      " -ffunction-sections -fdata-sections -m64 -fPIC-I/opt/dep/include" ∧
    strEndsWith
      (composeCflags (some "") "x86_64-unknown-linux-gnu" (some "/opt/dep/include"))
      "-m64 -fPIC -I/opt/dep/include" = false ∧
    strEndsWith
      (composeCflags (some "") "x86_64-unknown-linux-gnu" (some "/opt/dep/include"))
      "-m64 -fPIC-I/opt/dep/include" = true := by
  decide

/-- C3 counterexample: for the resolved target triple
aarch64-unknown-linux-gnu the composer appends no architecture-width flag
at all, refuting the claim that exactly one of -m32 and -m64 is appended
for every resolved target triple. -/
theorem width_flag_missing_counterexample :
    composeCflags (some "") "aarch64-unknown-linux-gnu" none =
      " -ffunction-sections -fdata-sections -fPIC" ∧
    strContains (composeCflags (some "") "aarch64-unknown-linux-gnu" none)
      "-m32" = false ∧
    strContains (composeCflags (some "") "aarch64-unknown-linux-gnu" none)
      "-m64" = false := by
  decide

/-- C3 (amended): the composed compile-flags string is the ambient CFLAGS
value followed by the two dead-code-elision flags, then the width flag
(-m32 when the triple contains i686, -m64 when it contains x86_64 and not
i686, nothing otherwise), then -fPIC exactly when the triple does not
contain i686, then the include hint suffix. -/
theorem composeCflags_decomposition (cflagsEnv : Option String)
    (target : String) (gmpInclude : Option String) :
    composeCflags cflagsEnv target gmpInclude =
      cflagsEnv.getD "" ++ " -ffunction-sections -fdata-sections" ++
        widthFlag target ++ picFlag target ++ includeFlag gmpInclude := by
  unfold composeCflags widthFlag picFlag includeFlag
  cases gmpInclude <;>
    cases h1 : strContains target "i686" <;>
      cases h2 : strContains target "x86_64" <;>
        (apply String.ext; simp [h1, h2])

/-- C2 counterexample: a run in which both scratch-directory deletions
fail for a reason other than non-existence, and every later operation
succeeds, completes without aborting, refuting the claim that such a
deletion failure is fatal. -/
theorem cleanup_failure_not_fatal_counterexample :
    (run_build
        { allOkWorld with rmBuildRes := IoResult.err, rmOutRes := IoResult.err }
        emptyStaged "out/lib").panicked = false := by
  decide

/-- C2 (amended): the cleanup step discards the results of both
scratch-directory deletions, so whether the run aborts, and which archive
rename it performs, are independent of those results; no deletion
failure, whatever its cause, is fatal. -/
theorem cleanup_results_ignored (w : BuildWorld) (s : StagedState)
    (d : String) (r1 r2 : IoResult) :
    (run_build { w with rmBuildRes := r1, rmOutRes := r2 } s d).panicked =
      (run_build w s d).panicked ∧
    (run_build { w with rmBuildRes := r1, rmOutRes := r2 } s d).stagedArchive =
      (run_build w s d).stagedArchive := by
  constructor <;>
    simp only [run_build, apply_ite BuildOutput.panicked,
      apply_ite BuildOutput.stagedArchive]

/-- C4: when the detector reports the library absent, the source build
driver stage is entered exactly when the staged archive libmpfr.a and
the staged header mpfr.h do not both exist; the directory existence
conjuncts of the marker add nothing, because a file can only exist inside
an existing directory (the two hypotheses). -/
theorem build_stage_skip_iff (name target : String) (q : Option String)
    (fs : String → Bool) (s : StagedState) (w : BuildWorld) (L I : String)
    (habsent : check_library name target q fs = false)
    (hld : s.libmpfrAExists = true → s.libDirExists = true)
    (hid : s.mpfrHExists = true → s.includeDirExists = true) :
    (mainRun name target q fs s w L I).buildInvoked =
      !(s.libmpfrAExists && s.mpfrHExists) := by
  have hsv : stagedValid s = (s.libmpfrAExists && s.mpfrHExists) := by
    rcases s with ⟨a, b, c, d, e⟩
    simp only [stagedValid] at *
    cases b <;> cases d <;> simp_all
  simp only [mainRun, habsent, Bool.false_eq_true, if_false, hsv]
  cases h : s.libmpfrAExists && s.mpfrHExists <;>
    simp [h, apply_ite MainResult.buildInvoked]

/-- C4 witness: with the detector reporting absence and a staged state in
which the archive, the header and both directories exist, the build stage
is skipped. -/
theorem build_stage_skip_iff_witness :
    (mainRun "libmpfr" "x86_64-unknown-linux-gnu" none (fun _ => false)
        ⟨true, true, true, true, true⟩ allOkWorld "o/lib" "o/include").buildInvoked
      = false := by
  have h := build_stage_skip_iff "libmpfr" "x86_64-unknown-linux-gnu" none
    (fun _ => false) ⟨true, true, true, true, true⟩ allOkWorld "o/lib" "o/include"
    (by decide) (by decide) (by decide)
  simpa using h

/-- C5: the detector returns a value in every case, and returns true
exactly when some strategy found evidence: either the cache query tool
launched with nonempty output containing a qualifying line, or the query
yielded nothing usable (launch failure or empty output) and one of the
fixed system directories holds the conventional shared-object file.  In
particular a tool launch failure or empty output falls back to the
directory probe, and with no evidence anywhere the result is false. -/
theorem check_library_no_false_presence (name target : String)
    (q : Option String) (fs : String → Bool) :
    check_library name target q fs = true ↔
      (∃ out, q = some out ∧ out.data.isEmpty = false ∧
        (splitLines out.data).any
          (fun l => cacheEntryQualifies (strContains target "x86_64") name
            (String.mk l)) = true) ∨
      ((q = none ∨ q = some "") ∧ probeSystemDirs fs = true) := by
  rcases q with _ | out
  · simp [check_library]
  · by_cases h : out.data.isEmpty = true
    · have hout : out = "" := by
        apply String.ext
        simpa [List.isEmpty_iff] using h
      subst hout
      simp [check_library]
    · have hne : out ≠ "" := by
        intro he
        subst he
        simp at h
      simp [check_library, h, hne, Bool.not_eq_true]
      intro x _ _
      simpa [List.isEmpty_iff] using h

/-- C5 witness: with a failed tool launch and no shared object in any of
the fixed directories, every strategy is exhausted and the detector
reports absence. -/
theorem check_library_no_false_presence_witness :
    check_library "libmpfr" "x86_64-unknown-linux-gnu" none
      (fun _ => false) = false := by
  have h := check_library_no_false_presence "libmpfr"
    "x86_64-unknown-linux-gnu" none (fun _ => false)
  rw [Bool.eq_false_iff]
  intro hT
  rcases h.mp hT with ⟨out, hout, _⟩ | ⟨_, hp⟩
  · exact Option.noConfusion hout
  · exact absurd hp (by decide)

/-- C6: with a successful cache query producing nonempty output, the
detector reports presence exactly when some output line contains the
library name and, whenever the target triple contains x86_64, also the
x86-64 architecture tag; for non-64-bit targets the name alone
qualifies. -/
theorem cache_filter_64bit (name target out : String) (fs : String → Bool)
    (hne : out.data.isEmpty = false) :
    check_library name target (some out) fs = true ↔
      ∃ l ∈ splitLines out.data,
        strContains (String.mk l) name = true ∧
        (strContains target "x86_64" = true →
          strContains (String.mk l) "x86-64" = true) := by
  cases h64 : strContains target "x86_64" <;>
    simp [check_library, hne, h64, cacheEntryQualifies, List.any_eq_true]

/-- C6 witness: a realistic ldconfig line tagged x86-64 qualifies for the
64-bit target triple and the detector reports presence. -/
theorem cache_filter_64bit_witness :
    check_library "libmpfr" "x86_64-unknown-linux-gnu"
      (some "libmpfr.so.4 (libc6,x86-64) => /usr/lib/libmpfr.so.4")
      (fun _ => false) = true := by
  apply (cache_filter_64bit "libmpfr" "x86_64-unknown-linux-gnu"
    "libmpfr.so.4 (libc6,x86-64) => /usr/lib/libmpfr.so.4"
    (fun _ => false) (by decide)).mpr
  refine ⟨("libmpfr.so.4 (libc6,x86-64) => /usr/lib/libmpfr.so.4").data,
    ?_, ?_, ?_⟩
  · decide
  · decide
  · intro _
    decide

/-- C7: on every run in which the detector reports the library absent and
no stage aborts, main emits exactly the three announcement lines of
emit_cargo_config, in order: the search-path-plus-static-link directive,
the libdir fact and the include fact; the model emits them only after the
build stage has finished. -/
theorem announce_three_lines (name target : String) (q : Option String)
    (fs : String → Bool) (s : StagedState) (w : BuildWorld) (L I : String)
    (habsent : check_library name target q fs = false)
    (hok : (mainRun name target q fs s w L I).panicked = false) :
    (mainRun name target q fs s w L I).emitted =
      ["cargo:rustc-flags=-L " ++ L ++ " -l mpfr:static",
       "cargo:libdir=" ++ L,
       "cargo:include=" ++ I] := by
  by_cases hsv : stagedValid s = true
  · simp [mainRun, habsent, hsv, emit_cargo_config]
  · by_cases hp : (run_build w s L).panicked = true
    · simp [mainRun, habsent, hsv, hp] at hok
    · simp [mainRun, habsent, hsv, hp, emit_cargo_config]

/-- C7 witness: a fresh run (nothing staged, every operation succeeding)
with the detector reporting absence emits exactly the three lines. -/
theorem announce_three_lines_witness :
    (mainRun "libmpfr" "x86_64-unknown-linux-gnu" none (fun _ => false)
        emptyStaged allOkWorld "o/lib" "o/include").emitted =
      ["cargo:rustc-flags=-L o/lib -l mpfr:static",
       "cargo:libdir=o/lib",
       "cargo:include=o/include"] := by
  have h := announce_three_lines "libmpfr" "x86_64-unknown-linux-gnu" none
    (fun _ => false) emptyStaged allOkWorld "o/lib" "o/include"
    (by decide) (by decide)
  rw [h]
  decide

/-- C8: under a successful build (scratch mkdir, configure and make all
succeed) and the filesystem fact that a rename from a non-existent .lib
location cannot succeed: when neither conventional archive location
exists the run aborts; when the .a location exists the archive is moved
from it to the canonical staged name; when only the .lib location exists
and its rename succeeds the archive is moved from the .lib location, to
the same canonical staged name. -/
theorem archive_staging_contract (w : BuildWorld) (s : StagedState)
    (d : String)
    (hmk : w.mkBuildRes = IoResult.ok) (hc : w.configureOk = true)
    (hm : w.makeOk = true)
    (hp2 : w.p2Exists = false → w.renameP2Res ≠ IoResult.ok) :
    ((w.p1Exists = false ∧ w.p2Exists = false) →
      (run_build w s d).panicked = true) ∧
    (w.p1Exists = true → w.renameP1Res = IoResult.ok →
      (run_build w s d).stagedArchive =
        some (archiveSrcA, d ++ "/libmpfr.a")) ∧
    (w.p1Exists = false → w.p2Exists = true → w.renameP2Res = IoResult.ok →
      (run_build w s d).stagedArchive =
        some (archiveSrcLib, d ++ "/libmpfr.a")) := by
  refine ⟨?_, ?_, ?_⟩
  · rintro ⟨h1, h2⟩
    have hr := hp2 h2
    simp [run_build, hmk, hc, hm, h1, hr, apply_ite BuildOutput.panicked]
  · intro h1 hr
    simp [run_build, hmk, hc, hm, h1, hr,
      apply_ite BuildOutput.stagedArchive]
  · intro h1 _ hr
    simp [run_build, hmk, hc, hm, h1, hr,
      apply_ite BuildOutput.stagedArchive]

/-- C8 witness: the build tool succeeds but neither archive location
exists, so the rename is attempted from the .lib location, fails, and the
run aborts. -/
theorem archive_staging_contract_witness :
    (run_build noArchiveWorld emptyStaged "o/lib").panicked = true :=
  (archive_staging_contract noArchiveWorld emptyStaged "o/lib"
    (by decide) (by decide) (by decide) (fun _ => by decide)).1 ⟨rfl, rfl⟩

/-- C9: when the detector reports the library present, main returns at
once: the build driver is not entered, nothing is emitted, the staged
state is untouched and the run does not abort. -/
theorem detector_present_short_circuit (name target : String)
    (q : Option String) (fs : String → Bool) (s : StagedState)
    (w : BuildWorld) (L I : String)
    (hp : check_library name target q fs = true) :
    mainRun name target q fs s w L I =
      { buildInvoked := false, panicked := false, emitted := [],
        finalState := s } := by
  simp [mainRun, hp]

/-- C9 witness: with the shared object present in a probed directory the
detector reports presence and main performs nothing. -/
theorem detector_present_short_circuit_witness :
    mainRun "libmpfr" "x86_64-unknown-linux-gnu" none (fun _ => true)
        ⟨false, true, false, true, false⟩ allOkWorld "o/lib" "o/include" =
      { buildInvoked := false, panicked := false, emitted := [],
        finalState := ⟨false, true, false, true, false⟩ } :=
  detector_present_short_circuit "libmpfr" "x86_64-unknown-linux-gnu" none
    (fun _ => true) ⟨false, true, false, true, false⟩ allOkWorld
    "o/lib" "o/include" (by decide)

/-- C10: the idempotence marker never inspects the auxiliary header
mpf2mpfr.h: when the staged archive, primary header and both directories
exist but the auxiliary header is missing, the build stage is skipped and
the final state still lacks the auxiliary header. -/
theorem aux_header_uninspected (name target : String) (q : Option String)
    (fs : String → Bool) (s : StagedState) (w : BuildWorld) (L I : String)
    (habsent : check_library name target q fs = false)
    (hld : s.libDirExists = true) (ha : s.libmpfrAExists = true)
    (hid : s.includeDirExists = true) (hh : s.mpfrHExists = true)
    (haux : s.mpf2mpfrHExists = false) :
    (mainRun name target q fs s w L I).buildInvoked = false ∧
    (mainRun name target q fs s w L I).finalState.mpf2mpfrHExists = false := by
  have hsv : stagedValid s = true := by
    simp [stagedValid, hld, ha, hid, hh]
  simp [mainRun, habsent, hsv, haux]

/-- C10 witness: a staged state with archive and primary header present
and the auxiliary header missing skips the build and leaves the auxiliary
header missing. -/
theorem aux_header_uninspected_witness :
    (mainRun "libmpfr" "x86_64-unknown-linux-gnu" none (fun _ => false)
        ⟨true, true, true, true, false⟩ allOkWorld "o/lib" "o/include").buildInvoked
      = false ∧
    (mainRun "libmpfr" "x86_64-unknown-linux-gnu" none (fun _ => false)
        ⟨true, true, true, true, false⟩ allOkWorld "o/lib"
        "o/include").finalState.mpf2mpfrHExists = false :=
  aux_header_uninspected "libmpfr" "x86_64-unknown-linux-gnu" none
    (fun _ => false) ⟨true, true, true, true, false⟩ allOkWorld
    "o/lib" "o/include" (by decide) rfl rfl rfl rfl rfl
